import Mathlib

/-!
Verification of the Media Stream Session Lifecycle of the `ngx-agora`
`Stream` contract.

The repository ships the `Stream` surface as a TypeScript interface
declaration only (method signatures and documentation); the behaviour it
promises — the lifecycle state machine, track binding, the effects and
audio-mixing subsystems, and the profile/encoder configuration rules — is
specified in the repository's specification.  Every behavioural definition
below is therefore modelled from the spec, faithful to its words, and the
theorems settle the spec's testable properties against that model.
-/

namespace NgxAgora

/-- Lifecycle states of a stream.  Modelled from the spec: the
`Stream` interface has no implementation in the repository; the spec gives
`Uninitialized -> Initializing -> Ready -> Playing -> Stopped -> Closed`,
with `Closed` terminal and reachable from any non-terminal state. -/
inductive LifecycleState where
  | uninitialized
  | initializing
  | ready
  | playing
  | stopped
  | closed
deriving DecidableEq

/-- Media kind of a track: audio or video. -/
inductive MediaKind where
  | audio
  | video
deriving DecidableEq

/-- Modelled from the spec: the `MediaStreamTrack` value bound into a
stream (its model file is not in the repository sources); a track carries
its media kind and a stopped flag (`replaceTrack` stops the replaced
track). -/
structure MediaStreamTrack where
  trackId : Nat
  kind : MediaKind
  stopped : Bool
deriving DecidableEq

/-- States of a loaded audio effect.  Modelled from the spec:
`{unloaded, loading, loaded, playing, paused}`. -/
inductive EffectState where
  | unloaded
  | loading
  | loaded
  | playing
  | paused
deriving DecidableEq

/-- Modelled from the spec: an `AudioEffect` entry
`{ soundId; filePath; state; volume 0-100 default 100 }`. -/
structure AudioEffect where
  soundId : Nat
  filePath : String
  state : EffectState
  volume : Nat
deriving DecidableEq

/-- States of the audio-mixing session: `{stopped, playing, paused}`. -/
inductive MixState where
  | stopped
  | playing
  | paused
deriving DecidableEq

/-- Modelled from the spec: the `AudioMixingSession`
`{ filePath; position : ms offset, range [0, 1e8]; state }`; at most one
instance per stream. -/
structure AudioMixingSession where
  filePath : String
  position : Int
  state : MixState
deriving DecidableEq

/-- Modelled from the spec: options passed to `startAudioMixing` (its
model file is not in the repository sources); the file path to mix. -/
structure AudioMixingOptions where
  filePath : String
deriving DecidableEq

/-- Modelled from the spec: `setVideoEncoderConfiguration` carries
optional resolution / framerate / bitrate overrides, applied as deltas on
top of the active profile (the configuration model file is not in the
repository sources). -/
structure VideoEncoderConfiguration where
  resolution : Option (Nat × Nat)
  frameRate : Option Nat
  bitrate : Option Nat
deriving DecidableEq

/-- Concrete video transmission settings resulting from a profile baseline
with encoder overrides applied. -/
structure VideoSettings where
  resolution : Nat × Nat
  frameRate : Nat
  bitrate : Nat
deriving DecidableEq

/-- Error taxonomy of the spec, plus `InvalidEffectStateError` used by the
audio-effect state machine. -/
inductive StreamError where
  | PermissionError
  | DeviceError
  | UnsupportedOperationError
  | InvalidStateError
  | InvalidArgumentError
  | ConflictError
  | NotActiveError
  | AlreadyInitializingError
  | InvalidEffectStateError
deriving DecidableEq

/-- Modelled from the spec: the `Stream` aggregate root.  The repository
declares `Stream` as a TypeScript interface with no implementation; the
fields here are the attributes the spec assigns to it: lifecycle state,
creation flags, enabled flags, the exclusively owned 0-or-1 audio and
video tracks, profiles and encoder overrides, the loaded effects keyed by
`soundId`, the optional mixing session, device authorization and the
bound rendering surface. -/
structure Stream where
  id : Nat
  state : LifecycleState
  wantsAudio : Bool
  wantsVideo : Bool
  audioEnabled : Bool
  videoEnabled : Bool
  audioTrack : Option MediaStreamTrack
  videoTrack : Option MediaStreamTrack
  audioProfile : String
  videoProfile : String
  screenProfile : String
  encoderConfig : VideoEncoderConfiguration
  effects : List AudioEffect
  mixing : Option AudioMixingSession
  deviceAuthorized : Bool
  boundSurface : Option String
deriving DecidableEq

/-- Modelled from the spec: `createStream` produces an `Uninitialized`
stream with the requested audio/video creation flags, no bound tracks,
default profiles (`music_standard` audio, `480p_1` video), enabled flags
true, no effects and no mixing session. -/
def createStream (audio video : Bool) : Stream :=
  { id := 0
    state := .uninitialized
    wantsAudio := audio
    wantsVideo := video
    audioEnabled := true
    videoEnabled := true
    audioTrack := none
    videoTrack := none
    audioProfile := "music_standard"
    videoProfile := "480p_1"
    screenProfile := "720p_1"
    encoderConfig := ⟨none, none, none⟩
    effects := []
    mixing := none
    deviceAuthorized := false
    boundSurface := none }

/-- The owned track of the given media kind, if any. -/
def getTrack (s : Stream) (k : MediaKind) : Option MediaStreamTrack :=
  match k with
  | .audio => s.audioTrack
  | .video => s.videoTrack

/-- Rebinds the owned track slot of the given media kind. -/
def setTrack (s : Stream) (k : MediaKind) (t : Option MediaStreamTrack) : Stream :=
  match k with
  | .audio => { s with audioTrack := t }
  | .video => { s with videoTrack := t }

/-- Modelled from the spec: `hasAudio()` reflects exactly whether an owned
audio track is currently bound. -/
def hasAudio (s : Stream) : Bool :=
  s.audioTrack.isSome

/-- Modelled from the spec: `hasVideo()` reflects exactly whether an owned
video track is currently bound. -/
def hasVideo (s : Stream) : Bool :=
  s.videoTrack.isSome

/-- Whether a track of the given kind is currently bound. -/
def hasKind (s : Stream) (k : MediaKind) : Bool :=
  (getTrack s k).isSome

/-- Modelled from the spec: the synchronous part of `init()`.  It
transitions `Uninitialized -> Initializing`; a concurrent `init()` while
`Initializing` fails with `AlreadyInitializingError` and leaves the
stream untouched; from any later state `init` is invalid.  The second
component is the error delivered to the caller; `none` means the call was
accepted. -/
def initStart (s : Stream) : Stream × Option StreamError :=
  match s.state with
  | .uninitialized => ({ s with state := .initializing }, none)
  | .initializing => (s, some .AlreadyInitializingError)
  | _ => (s, some .InvalidStateError)

/-- Modelled from the spec: the asynchronous settlement of an accepted
`init()` call.  On success the stream moves to `Ready`, acquires the
tracks requested by its creation flags and gains device authorization;
on failure it returns to `Uninitialized`.  Settlement only applies to a
stream that is `Initializing`. -/
def initSettle (s : Stream) (success : Bool) : Stream :=
  if s.state = .initializing then
    if success then
      { s with
        state := .ready
        audioTrack := if s.wantsAudio then some ⟨0, .audio, false⟩ else none
        videoTrack := if s.wantsVideo then some ⟨1, .video, false⟩ else none
        deviceAuthorized := true }
    else
      { s with state := .uninitialized }
  else s

/-- Whether a character is admissible in a rendering-surface identifier:
ASCII digits and letters, underscore, hyphen and period. -/
def isSurfaceChar (c : Char) : Bool :=
  c.isDigit || c.isAlpha || c == '_' || c == '-' || c == '.'

/-- Modelled from the spec: a valid surface (HTML element) identifier has
length at least 1 and at most 255 and draws every character from the
constrained set. -/
def validSurfaceId (id : String) : Bool :=
  decide (1 ≤ id.data.length) && decide (id.data.length ≤ 255) &&
    id.data.all isSurfaceChar

/-- Modelled from the spec: `play(elementId)` validates the surface
identifier synchronously, is valid from `Ready` or `Stopped` (moving to
`Playing`) and from `Playing` (re-binding the surface; each call
re-validates the identifier), and fails synchronously with
`InvalidStateError` in any other state.  `Except.error` models a
synchronous, explicit failure — never deferred to the async callback. -/
def play (s : Stream) (id : String) : Except StreamError Stream :=
  if validSurfaceId id then
    if s.state = .ready ∨ s.state = .stopped ∨ s.state = .playing then
      .ok { s with state := .playing, boundSurface := some id }
    else
      .error .InvalidStateError
  else
    .error .InvalidArgumentError

/-- Modelled from the spec: `stop()` is valid from `Playing` (returning to
`Stopped`), a valid no-op from `Stopped`, and invalid elsewhere. -/
def stop (s : Stream) : Stream × Option StreamError :=
  if s.state = .playing then
    ({ s with state := .stopped, boundSurface := none }, none)
  else if s.state = .stopped then
    (s, none)
  else
    (s, some .InvalidStateError)

/-- Modelled from the spec: `close()` is valid from any state except
`Closed`: it releases all owned tracks, effects and the mixing session,
revokes device authorization, and is terminal; a second `close()` has no
additional effect. -/
def close (s : Stream) : Stream :=
  if s.state = .closed then s
  else
    { s with
      state := .closed
      audioTrack := none
      videoTrack := none
      effects := []
      mixing := none
      deviceAuthorized := false
      boundSurface := none }

/-- Modelled from the spec: `muteAudio` flips the audio-enabled flag to
false; it is a no-op if the audio media kind is absent. -/
def muteAudio (s : Stream) : Stream :=
  if hasAudio s then { s with audioEnabled := false } else s

/-- Modelled from the spec: `unmuteAudio` flips the audio-enabled flag to
true; it is a no-op if the audio media kind is absent. -/
def unmuteAudio (s : Stream) : Stream :=
  if hasAudio s then { s with audioEnabled := true } else s

/-- Modelled from the spec: `muteVideo` flips the video-enabled flag to
false; it is a no-op if the video media kind is absent. -/
def muteVideo (s : Stream) : Stream :=
  if hasVideo s then { s with videoEnabled := false } else s

/-- Modelled from the spec: `unmuteVideo` flips the video-enabled flag to
true; it is a no-op if the video media kind is absent. -/
def unmuteVideo (s : Stream) : Stream :=
  if hasVideo s then { s with videoEnabled := true } else s

/-- Modelled from the spec: the deprecated `disableAudio` — "disables the
audio track in the stream; it works only when the audio flag is true in
the stream" — written independently from its own documentation, to be
compared with `muteAudio`. -/
def disableAudio (s : Stream) : Stream :=
  match s.audioTrack with
  | some _ => { s with audioEnabled := false }
  | none => s

/-- Modelled from the spec: the deprecated `enableAudio` — "enables the
audio track in the stream; it works only when the audio flag is true in
the stream" — written independently from its own documentation, to be
compared with `unmuteAudio`. -/
def enableAudio (s : Stream) : Stream :=
  match s.audioTrack with
  | some _ => { s with audioEnabled := true }
  | none => s

/-- Modelled from the spec: the deprecated `disableVideo` — "disables the
video track in the stream; it works only when the video flag is true in
the stream" — written independently from its own documentation, to be
compared with `muteVideo`. -/
def disableVideo (s : Stream) : Stream :=
  match s.videoTrack with
  | some _ => { s with videoEnabled := false }
  | none => s

/-- Modelled from the spec: the deprecated `enableVideo` — "enables the
video track in the stream; it works only when the video flag is true in
the stream" — written independently from its own documentation, to be
compared with `unmuteVideo`. -/
def enableVideo (s : Stream) : Stream :=
  match s.videoTrack with
  | some _ => { s with videoEnabled := true }
  | none => s

/-- Modelled from the spec: `addTrack(track)` fails with
`UnsupportedOperationError` if the stream already holds a track of that
media kind, and otherwise binds the track.  The second component is the
error delivered to the caller. -/
def addTrack (s : Stream) (t : MediaStreamTrack) : Stream × Option StreamError :=
  if (getTrack s t.kind).isSome then
    (s, some .UnsupportedOperationError)
  else
    (setTrack s t.kind (some t), none)

/-- Modelled from the spec: `removeTrack(track)` is no-op-safe if the
track is not present; otherwise it detaches the track, after which the
stream reports the corresponding `hasAudio`/`hasVideo` as false. -/
def removeTrack (s : Stream) (t : MediaStreamTrack) : Stream :=
  if getTrack s t.kind = some t then setTrack s t.kind none else s

/-- Marks a track as stopped, as happens to the track replaced by
`replaceTrack`. -/
def stopTrack (t : MediaStreamTrack) : MediaStreamTrack :=
  { t with stopped := true }

/-- Modelled from the spec: `replaceTrack(track)` atomically swaps the
active track of the matching kind; the previous track (returned as the
second component, if any) transitions to a stopped state.  It never fails
for holding a track of that kind already. -/
def replaceTrack (s : Stream) (t : MediaStreamTrack) :
    Stream × Option MediaStreamTrack :=
  (setTrack s t.kind (some t), (getTrack s t.kind).map stopTrack)

/-- The state of the effect registered under `soundId`; an absent entry
is `unloaded`. -/
def effectState (s : Stream) (soundId : Nat) : EffectState :=
  match s.effects.find? (fun e => e.soundId == soundId) with
  | some e => e.state
  | none => .unloaded

/-- Rewrites the state of the effect entries registered under
`soundId`. -/
def setEffectState (s : Stream) (soundId : Nat) (st : EffectState) : Stream :=
  { s with
    effects := s.effects.map
      (fun e => if e.soundId == soundId then { e with state := st } else e) }

/-- Modelled from the spec: `pauseEffect(soundId)` is valid only when the
effect is `playing`, moving it to `paused`; otherwise it fails with
`InvalidEffectStateError` delivered through the callback (the second
component), never thrown synchronously, and leaves the stream
unchanged. -/
def pauseEffect (s : Stream) (soundId : Nat) : Stream × Option StreamError :=
  if effectState s soundId = .playing then
    (setEffectState s soundId .paused, none)
  else
    (s, some .InvalidEffectStateError)

/-- Modelled from the spec: `resumeEffect(soundId)` is valid only when
the effect is `paused`, moving it back to `playing`; otherwise it fails
with `InvalidEffectStateError` delivered through the callback. -/
def resumeEffect (s : Stream) (soundId : Nat) : Stream × Option StreamError :=
  if effectState s soundId = .paused then
    (setEffectState s soundId .playing, none)
  else
    (s, some .InvalidEffectStateError)

/-- Modelled from the spec: `unloadEffect(soundId)` is valid from any
state other than `unloaded`, releasing the effect (its entry is removed,
so its state is `unloaded` afterwards); unloading an unloaded effect
fails with `InvalidEffectStateError` delivered through the callback. -/
def unloadEffect (s : Stream) (soundId : Nat) : Stream × Option StreamError :=
  if effectState s soundId = .unloaded then
    (s, some .InvalidEffectStateError)
  else
    ({ s with effects := s.effects.filter (fun e => !(e.soundId == soundId)) },
      none)

/-- Whether an audio-mixing session is active: a session exists and is
`playing` or `paused`. -/
def mixingActive (s : Stream) : Bool :=
  match s.mixing with
  | some m => m.state == .playing || m.state == .paused
  | none => false

/-- Modelled from the spec: `startAudioMixing` fails with `ConflictError`
if mixing is already active; otherwise it starts a fresh session playing
the given file from position 0. -/
def startAudioMixing (s : Stream) (opts : AudioMixingOptions) :
    Stream × Option StreamError :=
  if mixingActive s then
    (s, some .ConflictError)
  else
    ({ s with mixing := some ⟨opts.filePath, 0, .playing⟩ }, none)

/-- Rewrites the state of the mixing session, when one exists. -/
def setMixState (s : Stream) (st : MixState) : Stream :=
  { s with mixing := s.mixing.map (fun m => { m with state := st }) }

/-- Modelled from the spec: `pauseAudioMixing` requires an active session
or reports `NotActiveError`. -/
def pauseAudioMixing (s : Stream) : Stream × Option StreamError :=
  if mixingActive s then (setMixState s .paused, none)
  else (s, some .NotActiveError)

/-- Modelled from the spec: `resumeAudioMixing` requires an active
session or reports `NotActiveError`. -/
def resumeAudioMixing (s : Stream) : Stream × Option StreamError :=
  if mixingActive s then (setMixState s .playing, none)
  else (s, some .NotActiveError)

/-- Modelled from the spec: `stopAudioMixing` requires an active session
or reports `NotActiveError`. -/
def stopAudioMixing (s : Stream) : Stream × Option StreamError :=
  if mixingActive s then (setMixState s .stopped, none)
  else (s, some .NotActiveError)

/-- Modelled from the spec: `setAudioMixingPosition(position)` is valid
only while a mixing file is loaded (otherwise `NotActiveError`); any
position outside `[0, 100000000]` ms fails with `InvalidArgumentError`
and is never clamped. -/
def setAudioMixingPosition (s : Stream) (position : Int) :
    Stream × Option StreamError :=
  match s.mixing with
  | none => (s, some .NotActiveError)
  | some m =>
    if 0 ≤ position ∧ position ≤ 100000000 then
      ({ s with mixing := some { m with position := position } }, none)
    else
      (s, some .InvalidArgumentError)

/-- Whether initialization has completed for this stream: every state at
or past `Ready` in the lifecycle. -/
def initialized (s : Stream) : Bool :=
  s.state == .ready || s.state == .playing || s.state == .stopped ||
    s.state == .closed

/-- Modelled from the spec: `setAudioProfile` is effective only before
initialization completes; after initialization it is accepted without
error but has no effect. -/
def setAudioProfile (s : Stream) (p : String) : Stream :=
  if initialized s then s else { s with audioProfile := p }

/-- Modelled from the spec: `setVideoProfile` is effective only before
initialization completes; after initialization it is accepted without
error but has no effect. -/
def setVideoProfile (s : Stream) (p : String) : Stream :=
  if initialized s then s else { s with videoProfile := p }

/-- Modelled from the spec: `setScreenProfile` is effective only before
initialization completes; after initialization it is accepted without
error but has no effect. -/
def setScreenProfile (s : Stream) (p : String) : Stream :=
  if initialized s then s else { s with screenProfile := p }

/-- Merges encoder overrides: fields set by the newer configuration win,
fields it leaves unset keep their older value. -/
def mergeConfig (old new : VideoEncoderConfiguration) :
    VideoEncoderConfiguration :=
  { resolution := new.resolution.orElse (fun _ => old.resolution)
    frameRate := new.frameRate.orElse (fun _ => old.frameRate)
    bitrate := new.bitrate.orElse (fun _ => old.bitrate) }

/-- Modelled from the spec: `setVideoEncoderConfiguration` is effective
both before and after initialization; it records the given
resolution/framerate/bitrate fields as deltas on top of the active
profile. -/
def setVideoEncoderConfiguration (s : Stream)
    (c : VideoEncoderConfiguration) : Stream :=
  { s with encoderConfig := mergeConfig s.encoderConfig c }

/-- Applies encoder overrides as deltas on top of baseline settings. -/
def applyConfig (c : VideoEncoderConfiguration) (b : VideoSettings) :
    VideoSettings :=
  { resolution := c.resolution.getD b.resolution
    frameRate := c.frameRate.getD b.frameRate
    bitrate := c.bitrate.getD b.bitrate }

/-- The effective video settings of a stream: its encoder overrides
applied on top of the baseline settings of its active profile. -/
def effectiveVideoSettings (baseline : VideoSettings) (s : Stream) :
    VideoSettings :=
  applyConfig s.encoderConfig baseline

end NgxAgora

namespace NgxAgora

/-- The stream produced by a `play` call, or the unchanged input stream
when the call failed; used to name the result of a successful `play`. -/
def playResult (s : Stream) (id : String) : Stream :=
  match play s id with
  | .ok s' => s'
  | .error _ => s

/-- A concrete playing stream reached through the public operations, used
as a scenario input. -/
def demoPlaying : Stream :=
  playResult (initSettle (initStart (createStream true false)).1 true) "surf-0"

/-- A concrete initializing stream reached through the public operations,
used as a scenario input. -/
def demoInitializing : Stream :=
  (initStart (createStream true false)).1

/-- A concrete stream whose initialization has completed, used as a
scenario input. -/
def demoReady : Stream :=
  initSettle demoInitializing true

/-- A concrete audio track used as a scenario input. -/
def demoAudioTrackA : MediaStreamTrack := ⟨5, .audio, false⟩

/-- A second concrete audio track used as a scenario input. -/
def demoAudioTrackB : MediaStreamTrack := ⟨6, .audio, false⟩

/-- Reading the rebound track slot gives back what was written. -/
theorem getTrack_setTrack_same (s : Stream) (k : MediaKind)
    (o : Option MediaStreamTrack) : getTrack (setTrack s k o) k = o := by
  cases k <;> rfl

/-- Rewriting the state of the entries under a sound id commutes with
looking the sound id up. -/
theorem find_setEffect (l : List AudioEffect) (sid : Nat) (st : EffectState) :
    (l.map (fun e => if e.soundId == sid then { e with state := st } else e)).find?
        (fun e => e.soundId == sid)
      = (l.find? (fun e => e.soundId == sid)).map
          (fun e => { e with state := st }) := by
  induction l with
  | nil => rfl
  | cons a l ih =>
    by_cases ha : (a.soundId == sid) = true
    · rw [List.map_cons, if_pos ha, List.find?_cons, List.find?_cons]
      simp [ha]
    · rw [List.map_cons, if_neg ha, List.find?_cons, List.find?_cons]
      have ha' : (a.soundId == sid) = false := by
        cases hb : (a.soundId == sid) <;> simp_all
      simp only [ha']
      exact ih

/-- After filtering out a sound id, looking it up finds nothing. -/
theorem find_filterEffect (l : List AudioEffect) (sid : Nat) :
    (l.filter (fun e => !(e.soundId == sid))).find?
      (fun e => e.soundId == sid) = none := by
  induction l with
  | nil => rfl
  | cons a l ih =>
    by_cases ha : (a.soundId == sid) = true
    · simp [List.filter, ha, ih]
    · simp [List.filter, ha, ih, List.find?]

/-- The effect state after a state rewrite: the new state when an entry
for the sound id exists, `unloaded` otherwise. -/
theorem effectState_setEffectState (s : Stream) (sid : Nat)
    (st : EffectState) :
    effectState (setEffectState s sid st) sid
      = if (s.effects.find? (fun e => e.soundId == sid)).isSome then st
        else .unloaded := by
  unfold effectState setEffectState
  rw [find_setEffect]
  cases s.effects.find? (fun e => e.soundId == sid) <;> simp

/-- Combining optional overrides and then taking a default equals layering
the defaults. -/
theorem orElse_getD {α : Type} (o p : Option α) (d : α) :
    (o.orElse (fun _ => p)).getD d = o.getD (p.getD d) := by
  cases o <;> rfl

end NgxAgora

namespace NgxAgora

/-- C2: a second `init()` issued while the stream is `Initializing` fails
with `AlreadyInitializingError`, leaves the stream untouched, and the
settlement of the first `init()` call is unaffected by the second. -/
theorem concurrent_init_rejected (s : Stream) (b : Bool)
    (h : s.state = .initializing) :
    (initStart s).2 = some .AlreadyInitializingError ∧
    (initStart s).1 = s ∧
    initSettle (initStart s).1 b = initSettle s b := by
  simp [initStart, h]

/-- Witness for C2 at a concrete initializing stream. -/
theorem concurrent_init_rejected_witness :
    demoInitializing.state = .initializing ∧
    ((initStart demoInitializing).2 = some .AlreadyInitializingError ∧
     (initStart demoInitializing).1 = demoInitializing ∧
     initSettle (initStart demoInitializing).1 true
       = initSettle demoInitializing true) :=
  ⟨rfl, concurrent_init_rejected demoInitializing true rfl⟩

/-- C3: `addTrack` fails with `UnsupportedOperationError` exactly when a
track of the same kind is already held, so a second `addTrack` of the
same kind always fails; `replaceTrack` never fails for that reason, swaps
in the new track of the matching kind and returns the replaced track
stopped. -/
theorem single_track_per_kind (s : Stream) (t u : MediaStreamTrack)
    (h : u.kind = t.kind) :
    ((addTrack s t).2 = some .UnsupportedOperationError ↔
      (getTrack s t.kind).isSome = true) ∧
    (addTrack (addTrack s t).1 u).2 = some .UnsupportedOperationError ∧
    getTrack (replaceTrack s t).1 t.kind = some t ∧
    (replaceTrack s t).2 = (getTrack s t.kind).map stopTrack := by
  refine ⟨?_, ?_, ?_, rfl⟩
  · by_cases hk : (getTrack s t.kind).isSome = true
    · simp [addTrack, hk]
    · simp [addTrack, hk]
  · by_cases hk : (getTrack s t.kind).isSome = true
    · simp [addTrack, hk, h]
    · simp [addTrack, hk, h, getTrack_setTrack_same]
  · simp [replaceTrack, getTrack_setTrack_same]

/-- Witness for C3 at a concrete empty stream and two audio tracks. -/
theorem single_track_per_kind_witness :
    demoAudioTrackB.kind = demoAudioTrackA.kind ∧
    (((addTrack (createStream false false) demoAudioTrackA).2
        = some .UnsupportedOperationError ↔
      (getTrack (createStream false false) demoAudioTrackA.kind).isSome
        = true) ∧
     (addTrack (addTrack (createStream false false) demoAudioTrackA).1
        demoAudioTrackB).2 = some .UnsupportedOperationError ∧
     getTrack (replaceTrack (createStream false false) demoAudioTrackA).1
        demoAudioTrackA.kind = some demoAudioTrackA ∧
     (replaceTrack (createStream false false) demoAudioTrackA).2
        = (getTrack (createStream false false) demoAudioTrackA.kind).map
            stopTrack) :=
  ⟨rfl, single_track_per_kind (createStream false false)
    demoAudioTrackA demoAudioTrackB rfl⟩

/-- C4: `hasAudio`/`hasVideo` reflect exactly whether an owned track of
that kind is bound; `removeTrack` is a no-op exactly when the track is
not present, and removing a present track makes the stream report the
corresponding kind as absent. -/
theorem has_media_reflects_tracks (s : Stream) (t : MediaStreamTrack) :
    hasAudio s = s.audioTrack.isSome ∧
    hasVideo s = s.videoTrack.isSome ∧
    ((removeTrack s t = s) ↔ ¬ getTrack s t.kind = some t) ∧
    hasKind (removeTrack s t) t.kind
      = (!decide (getTrack s t.kind = some t) && hasKind s t.kind) := by
  refine ⟨rfl, rfl, ?_, ?_⟩
  · constructor
    · intro he hp
      rw [removeTrack, if_pos hp] at he
      have h2 := congrArg (fun x => getTrack x t.kind) he
      simp only [getTrack_setTrack_same] at h2
      rw [hp] at h2
      exact Option.noConfusion h2
    · intro hn
      simp [removeTrack, hn]
  · by_cases hp : getTrack s t.kind = some t
    · simp [removeTrack, hp, hasKind, getTrack_setTrack_same]
    · simp [removeTrack, hp, hasKind]

/-- C5: per sound id, `pauseEffect` moves `playing` to `paused` and fails
with `InvalidEffectStateError` (through the callback) from any other
state; `resumeEffect` moves `paused` to `playing` and fails otherwise;
`unloadEffect` succeeds from any state other than `unloaded`, always
leaving the effect `unloaded`, and fails when already unloaded. -/
theorem effect_state_machine (s : Stream) (soundId : Nat) :
    effectState (pauseEffect s soundId).1 soundId
      = (if effectState s soundId = .playing then .paused
         else effectState s soundId) ∧
    ((pauseEffect s soundId).2 = some .InvalidEffectStateError ↔
      ¬ effectState s soundId = .playing) ∧
    effectState (resumeEffect s soundId).1 soundId
      = (if effectState s soundId = .paused then .playing
         else effectState s soundId) ∧
    ((resumeEffect s soundId).2 = some .InvalidEffectStateError ↔
      ¬ effectState s soundId = .paused) ∧
    effectState (unloadEffect s soundId).1 soundId = .unloaded ∧
    ((unloadEffect s soundId).2 = some .InvalidEffectStateError ↔
      effectState s soundId = .unloaded) := by
  have hfind : effectState s soundId ≠ .unloaded →
      (s.effects.find? (fun e => e.soundId == soundId)).isSome = true := by
    intro hne
    unfold effectState at hne
    cases hf : s.effects.find? (fun e => e.soundId == soundId) with
    | none => rw [hf] at hne; exact absurd rfl hne
    | some e => simp
  refine ⟨?_, ?_, ?_, ?_, ?_, ?_⟩
  · by_cases hp : effectState s soundId = .playing
    · have := hfind (by rw [hp]; exact fun hc => EffectState.noConfusion hc)
      simp [pauseEffect, hp, effectState_setEffectState, this]
    · simp [pauseEffect, hp]
  · by_cases hp : effectState s soundId = .playing
    · simp [pauseEffect, hp]
    · simp [pauseEffect, hp]
  · by_cases hp : effectState s soundId = .paused
    · have := hfind (by rw [hp]; exact fun hc => EffectState.noConfusion hc)
      simp [resumeEffect, hp, effectState_setEffectState, this]
    · simp [resumeEffect, hp]
  · by_cases hp : effectState s soundId = .paused
    · simp [resumeEffect, hp]
    · simp [resumeEffect, hp]
  · by_cases hp : effectState s soundId = .unloaded
    · simp [unloadEffect, hp]
    · simp only [unloadEffect, if_neg hp]
      unfold effectState
      rw [find_filterEffect]
  · by_cases hp : effectState s soundId = .unloaded
    · simp [unloadEffect, hp]
    · simp [unloadEffect, hp]

end NgxAgora

namespace NgxAgora

/-- C1: for a stream created with `hasAudio=true, hasVideo=false`, the
lifecycle follows `Uninitialized -> Initializing -> Ready` through a
successful `init()`; `play "container-1"` moves it to `Playing`;
`muteAudio` sets `audioEnabled=false` without changing the lifecycle
state; `stop` returns it to `Stopped`; `close` moves it to `Closed`; and
a subsequent `play` on the closed stream fails with
`InvalidStateError`. -/
theorem lifecycle_scenario_audio_only :
    (createStream true false).state = .uninitialized ∧
    (initStart (createStream true false)).2 = none ∧
    (initStart (createStream true false)).1.state = .initializing ∧
    (initSettle (initStart (createStream true false)).1 true).state = .ready ∧
    (let s₂ := initSettle (initStart (createStream true false)).1 true
     let s₃ := playResult s₂ "container-1"
     play s₂ "container-1" = .ok s₃ ∧
     s₃.state = .playing ∧
     (muteAudio s₃).audioEnabled = false ∧
     (muteAudio s₃).state = .playing ∧
     (stop (muteAudio s₃)).1.state = .stopped ∧
     (close (stop (muteAudio s₃)).1).state = .closed ∧
     play (close (stop (muteAudio s₃)).1) "container-1"
       = .error .InvalidStateError) := by
  exact ⟨rfl, rfl, rfl, rfl, rfl, rfl, rfl, rfl, rfl, rfl, rfl⟩

end NgxAgora

namespace NgxAgora

/-- Whether an operation's synchronous result was a success. -/
def callOk (r : Except StreamError Stream) : Bool :=
  match r with
  | .ok _ => true
  | .error _ => false

/-- C6: after initialization completes, `setAudioProfile`,
`setVideoProfile` and `setScreenProfile` are accepted without error and
leave the stream entirely unchanged; before initialization they install
the profile; `setVideoEncoderConfiguration` is effective on every stream
`u`, before and after initialization alike, and acts on the effective
settings as deltas applied on top of the active profile. -/
theorem profile_setters_pre_init_only (s u : Stream) (p v sc : String)
    (c : VideoEncoderConfiguration) (b : VideoSettings) (a w : Bool)
    (h : initialized s = true) :
    setAudioProfile s p = s ∧
    setVideoProfile s v = s ∧
    setScreenProfile s sc = s ∧
    (setAudioProfile (createStream a w) p).audioProfile = p ∧
    (setVideoProfile (createStream a w) v).videoProfile = v ∧
    (setScreenProfile (createStream a w) sc).screenProfile = sc ∧
    effectiveVideoSettings b (setVideoEncoderConfiguration u c)
      = applyConfig c (effectiveVideoSettings b u) ∧
    effectiveVideoSettings b (setVideoEncoderConfiguration s c)
      = applyConfig c (effectiveVideoSettings b s) := by
  refine ⟨?_, ?_, ?_, rfl, rfl, rfl, ?_, ?_⟩
  · simp [setAudioProfile, h]
  · simp [setVideoProfile, h]
  · simp [setScreenProfile, h]
  · simp [effectiveVideoSettings, setVideoEncoderConfiguration,
      applyConfig, mergeConfig, orElse_getD]
  · simp [effectiveVideoSettings, setVideoEncoderConfiguration,
      applyConfig, mergeConfig, orElse_getD]

/-- Witness for C6: the post-initialization clauses at the concrete
`demoReady` stream and the encoder-configuration delta clause at the
concrete uninitialized stream `createStream true false`. -/
theorem profile_setters_pre_init_only_witness :
    initialized demoReady = true ∧
    (setAudioProfile demoReady "high_quality" = demoReady ∧
     setVideoProfile demoReady "720p_1" = demoReady ∧
     setScreenProfile demoReady "1080p_1" = demoReady ∧
     (setAudioProfile (createStream true false) "high_quality").audioProfile
       = "high_quality" ∧
     (setVideoProfile (createStream true false) "720p_1").videoProfile
       = "720p_1" ∧
     (setScreenProfile (createStream true false) "1080p_1").screenProfile
       = "1080p_1" ∧
     effectiveVideoSettings ⟨(640, 480), 15, 500⟩
        (setVideoEncoderConfiguration (createStream true false)
          ⟨some (1280, 720), none, none⟩)
       = applyConfig ⟨some (1280, 720), none, none⟩
          (effectiveVideoSettings ⟨(640, 480), 15, 500⟩
            (createStream true false)) ∧
     effectiveVideoSettings ⟨(640, 480), 15, 500⟩
        (setVideoEncoderConfiguration demoReady ⟨some (1280, 720), none, none⟩)
       = applyConfig ⟨some (1280, 720), none, none⟩
          (effectiveVideoSettings ⟨(640, 480), 15, 500⟩ demoReady)) :=
  ⟨rfl, profile_setters_pre_init_only demoReady (createStream true false)
    "high_quality" "720p_1" "1080p_1" ⟨some (1280, 720), none, none⟩
    ⟨(640, 480), 15, 500⟩ true false rfl⟩

/-- C7: `startAudioMixing` fails with `ConflictError` exactly when mixing
is already active; `pauseAudioMixing`, `resumeAudioMixing` and
`stopAudioMixing` fail with `NotActiveError` exactly when no active
session exists; `setAudioMixingPosition` requires a loaded mixing file,
fails with `InvalidArgumentError` exactly for positions outside
`[0, 100000000]`, and never clamps: whenever it reports an error the
stream is unchanged. -/
theorem audio_mixing_singleton (s : Stream) (opts : AudioMixingOptions)
    (pos : Int) :
    ((startAudioMixing s opts).2 = some .ConflictError ↔
      mixingActive s = true) ∧
    ((pauseAudioMixing s).2 = some .NotActiveError ↔
      mixingActive s = false) ∧
    ((resumeAudioMixing s).2 = some .NotActiveError ↔
      mixingActive s = false) ∧
    ((stopAudioMixing s).2 = some .NotActiveError ↔
      mixingActive s = false) ∧
    ((setAudioMixingPosition s pos).2 = some .NotActiveError ↔
      s.mixing = none) ∧
    ((setAudioMixingPosition s pos).2 = some .InvalidArgumentError ↔
      (s.mixing.isSome = true ∧ ¬(0 ≤ pos ∧ pos ≤ 100000000))) ∧
    ((setAudioMixingPosition s pos).1 = s ∨
      (setAudioMixingPosition s pos).2 = none) := by
  refine ⟨?_, ?_, ?_, ?_, ?_, ?_, ?_⟩
  · by_cases hm : mixingActive s = true
    · simp [startAudioMixing, hm]
    · simp [startAudioMixing, hm]
  · by_cases hm : mixingActive s = true
    · simp [pauseAudioMixing, hm]
    · simp [pauseAudioMixing, hm]
  · by_cases hm : mixingActive s = true
    · simp [resumeAudioMixing, hm]
    · simp [resumeAudioMixing, hm]
  · by_cases hm : mixingActive s = true
    · simp [stopAudioMixing, hm]
    · simp [stopAudioMixing, hm]
  · cases hm : s.mixing with
    | none => simp [setAudioMixingPosition, hm]
    | some m =>
      by_cases hr : 0 ≤ pos ∧ pos ≤ 100000000
      · simp [setAudioMixingPosition, hm, hr]
      · simp [setAudioMixingPosition, hm, hr]
  · cases hm : s.mixing with
    | none => simp [setAudioMixingPosition, hm]
    | some m =>
      by_cases hr : 0 ≤ pos ∧ pos ≤ 100000000
      · simp [setAudioMixingPosition, hm, hr]
      · simp [setAudioMixingPosition, hm, hr]
  · cases hm : s.mixing with
    | none => left; simp [setAudioMixingPosition, hm]
    | some m =>
      by_cases hr : 0 ≤ pos ∧ pos ≤ 100000000
      · right; simp [setAudioMixingPosition, hm, hr]
      · left; simp [setAudioMixingPosition, hm, hr]

/-- C8 counterexample: `play` also succeeds while the stream is already
`Playing` (it re-binds the surface), so "succeeds only when the stream is
in state Ready or Stopped" fails at this concrete playing stream. -/
theorem play_only_ready_or_stopped_counterexample :
    demoPlaying.state = .playing ∧
    play demoPlaying "container-1"
      = .ok (playResult demoPlaying "container-1") :=
  ⟨rfl, rfl⟩

/-- C8 (amended): `play(elementId)` succeeds exactly when the stream is
`Ready`, `Stopped` or already `Playing` (a re-bind) and the surface
identifier is drawn from ASCII digits, letters, underscore, hyphen and
period with length 1 to 255; an invalid identifier fails synchronously
with `InvalidArgumentError` — re-validated on every call, also while
`Playing` — and a valid identifier in any other state fails synchronously
with `InvalidStateError`. -/
theorem play_validation_and_states (s : Stream) (id : String) :
    callOk (play s id)
      = (validSurfaceId id &&
          decide (s.state = .ready ∨ s.state = .stopped ∨
            s.state = .playing)) ∧
    (play s id = .error .InvalidArgumentError ↔
      validSurfaceId id = false) ∧
    (play s id = .error .InvalidStateError ↔
      (validSurfaceId id = true ∧
        ¬(s.state = .ready ∨ s.state = .stopped ∨ s.state = .playing))) := by
  by_cases hv : validSurfaceId id = true
  · by_cases hs : s.state = .ready ∨ s.state = .stopped ∨ s.state = .playing
    · refine ⟨?_, ?_, ?_⟩ <;> simp [play, callOk, hv, hs]
    · refine ⟨?_, ?_, ?_⟩ <;> simp [play, callOk, hv, hs]
  · have hv' : validSurfaceId id = false := by
      cases hb : validSurfaceId id <;> simp_all
    refine ⟨?_, ?_, ?_⟩ <;> simp [play, callOk, hv']

/-- C9: `close` is idempotent — a second call produces no further change —
and the first `close` from any non-closed state releases the owned
tracks, effects and mixing session, revokes device authorization, and
leaves the stream in the terminal `Closed` state. -/
theorem close_idempotent_releases (s : Stream) (h : ¬ s.state = .closed) :
    close (close s) = close s ∧
    (close s).state = .closed ∧
    (close s).audioTrack = none ∧
    (close s).videoTrack = none ∧
    (close s).effects = [] ∧
    (close s).mixing = none ∧
    (close s).deviceAuthorized = false := by
  simp [close, h]

/-- Witness for C9 at a concrete freshly created stream. -/
theorem close_idempotent_releases_witness :
    ¬ (createStream true true).state = .closed ∧
    (close (close (createStream true true)) = close (createStream true true) ∧
     (close (createStream true true)).state = .closed ∧
     (close (createStream true true)).audioTrack = none ∧
     (close (createStream true true)).videoTrack = none ∧
     (close (createStream true true)).effects = [] ∧
     (close (createStream true true)).mixing = none ∧
     (close (createStream true true)).deviceAuthorized = false) :=
  ⟨by decide, close_idempotent_releases (createStream true true) (by decide)⟩

/-- C10: the deprecated `disableAudio`/`enableAudio` and
`disableVideo`/`enableVideo` are behaviorally equivalent to
`muteAudio`/`unmuteAudio` and `muteVideo`/`unmuteVideo`: on every stream
state they produce the same resulting stream. -/
theorem deprecated_aliases_equiv (s : Stream) :
    disableAudio s = muteAudio s ∧
    enableAudio s = unmuteAudio s ∧
    disableVideo s = muteVideo s ∧
    enableVideo s = unmuteVideo s := by
  refine ⟨?_, ?_, ?_, ?_⟩
  · cases ht : s.audioTrack <;>
      simp [disableAudio, muteAudio, hasAudio, ht]
  · cases ht : s.audioTrack <;>
      simp [enableAudio, unmuteAudio, hasAudio, ht]
  · cases ht : s.videoTrack <;>
      simp [disableVideo, muteVideo, hasVideo, ht]
  · cases ht : s.videoTrack <;>
      simp [enableVideo, unmuteVideo, hasVideo, ht]

end NgxAgora
